import Mathlib

/-!
Shallow embedding of the Pololu Maestro servo-controller driver
(`Pololu.cpp`, `ServoMotor.cpp`) for verification of its specification.

Machine integers are modelled as `Nat`/`Int` with explicit `% 2^w` where
the C++ code performs a narrowing conversion.  The serial transport is
modelled as a pure oracle `device : List Nat → List Nat` mapping the
bytes written to the bytes read back; every transport call is recorded
in a `trace`.  C++ exceptions become an explicit error value that is
returned together with the (unchanged, on failure) connection state.
-/

/-- Error taxonomy of the driver: `notConnected` models the
`ExceptionPololu` thrown when `isComPortOpen_` is false, `outOfRange`
models the range-violation exceptions thrown by the `ServoMotor`
classes. -/
inductive PErr where
  | notConnected
  | outOfRange
  deriving DecidableEq

/-- Connection state of the `Pololu` object (`Pololu.cpp`):
`isComPortOpen` is the member `isComPortOpen_`; `device` is the
serial-port oracle (response bytes as a function of the written
command bytes); `trace` records every command written to the port, in
order. -/
structure Conn where
  isComPortOpen : Bool
  device : List Nat → List Nat
  trace : List (List Nat)

/-- Command bytes built by `Pololu::setPosition` (Pololu.cpp line 139):
`{0x84, (unsigned char)servo, goToPosition & 0x7F, (goToPosition >> 7) & 0x7F}`. -/
def encodeSetPosition (servo goToPosition : Nat) : List Nat :=
  [0x84, servo % 256, goToPosition % 128, goToPosition / 128 % 128]

/-- Command bytes built by `Pololu::setSpeed` (Pololu.cpp line 179). -/
def encodeSetSpeed (servo goToSpeed : Nat) : List Nat :=
  [0x87, servo % 256, goToSpeed % 128, goToSpeed / 128 % 128]

/-- Command bytes built by `Pololu::setAcceleration` (Pololu.cpp line 220). -/
def encodeSetAcceleration (servo goToAcceleration : Nat) : List Nat :=
  [0x89, servo % 256, goToAcceleration % 128, goToAcceleration / 128 % 128]

/-- Command bytes built by `Pololu::getPosition` (Pololu.cpp line 261). -/
def encodeGetPosition (servo : Nat) : List Nat :=
  [0x90, servo % 256]

/-- Command bytes built by `Pololu::getMovingState` (Pololu.cpp line 301). -/
def encodeGetMovingState : List Nat :=
  [0x93]

/-- `Pololu::Pololu(portName, baudRate)`: a freshly constructed object
has `isComPortOpen_ = false` and has performed no transport call. -/
def Pololu.fresh (device : List Nat → List Nat) : Conn :=
  { isComPortOpen := false, device := device, trace := [] }

/-- `Pololu::setPosition` (Pololu.cpp lines 125-155): throws when the
port is closed; otherwise writes the 4 command bytes and returns
`goToPosition`. -/
def Pololu.setPosition (servo goToPosition : Nat) (s : Conn) :
    Except PErr Nat × Conn :=
  if s.isComPortOpen = false then (.error .notConnected, s)
  else (.ok goToPosition,
        { s with trace := s.trace ++ [encodeSetPosition servo goToPosition] })

/-- `Pololu::setSpeed` (Pololu.cpp lines 165-195): throws when the port
is closed; otherwise writes the 4 command bytes and returns `true`. -/
def Pololu.setSpeed (servo goToSpeed : Nat) (s : Conn) :
    Except PErr Bool × Conn :=
  if s.isComPortOpen = false then (.error .notConnected, s)
  else (.ok true,
        { s with trace := s.trace ++ [encodeSetSpeed servo goToSpeed] })

/-- `Pololu::setAcceleration` (Pololu.cpp lines 205-236): throws when
the port is closed; otherwise writes the 4 command bytes and returns 1. -/
def Pololu.setAcceleration (servo goToAcceleration : Nat) (s : Conn) :
    Except PErr Bool × Conn :=
  if s.isComPortOpen = false then (.error .notConnected, s)
  else (.ok true,
        { s with trace := s.trace ++ [encodeSetAcceleration servo goToAcceleration] })

/-- `Pololu::getPosition` (Pololu.cpp lines 245-280): throws when the
port is closed; otherwise writes the 2 command bytes, reads a 2-byte
response and returns `response[0] + 256 * response[1]`. -/
def Pololu.getPosition (servo : Nat) (s : Conn) :
    Except PErr Nat × Conn :=
  if s.isComPortOpen = false then (.error .notConnected, s)
  else
    let response := s.device (encodeGetPosition servo)
    (.ok (response.getD 0 0 % 256 + 256 * (response.getD 1 0 % 256)),
     { s with trace := s.trace ++ [encodeGetPosition servo] })

/-- `Pololu::getMovingState` (Pololu.cpp lines 287-315): throws when
the port is closed; otherwise writes the 1 command byte, reads a 1-byte
response and returns it converted to `bool` (nonzero means moving). -/
def Pololu.getMovingState (s : Conn) :
    Except PErr Bool × Conn :=
  if s.isComPortOpen = false then (.error .notConnected, s)
  else
    let response := s.device encodeGetMovingState
    (.ok (decide (response.getD 0 0 % 256 ≠ 0)),
     { s with trace := s.trace ++ [encodeGetMovingState] })

/-- A transport oracle that answers every read with zero bytes; used to
instantiate theorems about write-only commands. -/
def devNull : List Nat → List Nat := fun _ => []

/-- Conversion of a value to the C++ `short` return type (the value is
reduced mod 2^16 and reinterpreted as a signed 16-bit integer). -/
def toShort (n : Nat) : Int :=
  if n % 65536 < 32768 then (n % 65536 : Int) else (n % 65536 : Int) - 65536

/-- Member constant `conFactorDegToPos = 10` of class `ServoMotor`
(ServoMotor.hpp line 355). -/
def conFactorDegToPos : Int := 10

/-- Member constant `conFactorMyToPos = 4` of class `ServoMotor`
(ServoMotor.hpp line 356). -/
def conFactorMyToPos : Int := 4

/-- Member constant `maxDeg = 90` of class `ServoMotor`
(ServoMotor.hpp line 349). -/
def servoMotorMaxDeg : Int := 90

/-- The older-revision servo class `ServoMotor` (ServoMotor.hpp lines
347-384): channel index, calibrated centre position and half-range. -/
structure ServoMotor where
  servoNumber : Nat
  startingPosition : Nat
  delta : Nat

/-- `ServoMotor::getMinPosInAbs` (ServoMotor.cpp line 43): the `int`
difference `startingPosition_ - delta_` converted to the `unsigned
short` return type. -/
def ServoMotor.getMinPosInAbs (m : ServoMotor) : Nat :=
  ((((m.startingPosition : Int) - m.delta) % 65536)).toNat

/-- `ServoMotor::getMidPosInAbs` (ServoMotor.cpp line 52). -/
def ServoMotor.getMidPosInAbs (m : ServoMotor) : Nat :=
  m.startingPosition

/-- `ServoMotor::getMaxPosInAbs` (ServoMotor.cpp line 61): the `int`
sum `startingPosition_ + delta_` converted to `unsigned short`. -/
def ServoMotor.getMaxPosInAbs (m : ServoMotor) : Nat :=
  ((((m.startingPosition : Int) + m.delta) % 65536)).toNat

/-- `ServoMotor::setPositionInAbs` (ServoMotor.cpp lines 72-78): the
range comparison happens after integral promotion to `int`, so no
unsigned wraparound occurs in the bounds. -/
def ServoMotor.setPositionInAbs (m : ServoMotor) (newPosition : Nat) (s : Conn) :
    Except PErr Nat × Conn :=
  if (newPosition : Int) > (m.startingPosition : Int) + m.delta ∨
     (newPosition : Int) < (m.startingPosition : Int) - m.delta then
    (.error .outOfRange, s)
  else Pololu.setPosition m.servoNumber newPosition s

/-- The `int` expression `startingPosition_ + newPosition *
conFactorDegToPos * conFactorMyToPos` of ServoMotor.cpp line 90,
converted to the `unsigned short` parameter of `Pololu::setPosition`. -/
def ServoMotor.degToRaw (m : ServoMotor) (newPosition : Int) : Nat :=
  ((((m.startingPosition : Int) +
      newPosition * conFactorDegToPos * conFactorMyToPos) % 65536)).toNat

/-- `ServoMotor::setPositionInDeg` (ServoMotor.cpp lines 86-92). -/
def ServoMotor.setPositionInDeg (m : ServoMotor) (newPosition : Int) (s : Conn) :
    Except PErr Int × Conn :=
  if newPosition > servoMotorMaxDeg ∨ newPosition < -servoMotorMaxDeg then
    (.error .outOfRange, s)
  else
    match Pololu.setPosition m.servoNumber (m.degToRaw newPosition) s with
    | (.error e, s1) => (.error e, s1)
    | (.ok v, s1) => (.ok (toShort v), s1)

/-- `ServoMotor::setSpeed` (ServoMotor.cpp lines 117-123), with
`maxSpeed = 255`, `minSpeed = 1` (ServoMotor.hpp lines 351, 353). -/
def ServoMotor.setSpeed (m : ServoMotor) (newSpeed : Nat) (s : Conn) :
    Except PErr Bool × Conn :=
  if newSpeed > 255 ∨ newSpeed < 1 then (.error .outOfRange, s)
  else Pololu.setSpeed m.servoNumber newSpeed s

/-- `ServoMotor::setAcceleration` (ServoMotor.cpp lines 132-138), with
`maxAcceleration = 255`, `minAcceleration = 1` (ServoMotor.hpp lines
352, 354). -/
def ServoMotor.setAcceleration (m : ServoMotor) (newAcceleration : Nat) (s : Conn) :
    Except PErr Bool × Conn :=
  if newAcceleration > 255 ∨ newAcceleration < 1 then (.error .outOfRange, s)
  else Pololu.setAcceleration m.servoNumber newAcceleration s

/-- `ServoMotor::getPositionInDeg` (ServoMotor.cpp lines 177-179):
`(getPosition(servo) / conFactorMyToPos - startingPosition_) /
conFactorDegToPos`, where the first division is on nonnegative `int`
values and the second is C++ `int` division (truncation toward zero). -/
def ServoMotor.getPositionInDeg (m : ServoMotor) (s : Conn) :
    Except PErr Int × Conn :=
  match Pololu.getPosition m.servoNumber s with
  | (.error e, s1) => (.error e, s1)
  | (.ok p, s1) =>
      (.ok (Int.tdiv (((p / 4 : Nat) : Int) - (m.startingPosition : Int))
              conFactorDegToPos), s1)

/-- The newer-revision base servo class `ServoMotorPololuBase`
(ServoMotor.hpp lines 222-315).  Its constructor (ServoMotor.cpp lines
232-262) rejects `neutralPosition_ <= delta`, so constructed objects
satisfy `delta < neutralPosition`. -/
structure ServoMotorPololuBase where
  servoNmb : Nat
  neutralPosition : Nat
  delta : Nat

/-- `ServoMotorPololuBase::getMinPosInAbs` (ServoMotor.cpp line 273):
the `int` difference `neutralPosition_ - delta_` converted to the
`unsigned short` return type. -/
def ServoMotorPololuBase.getMinPosInAbs (m : ServoMotorPololuBase) : Nat :=
  ((((m.neutralPosition : Int) - m.delta) % 65536)).toNat

/-- `ServoMotorPololuBase::getMaxPosInAbs` (ServoMotor.cpp line 277):
the `int` sum `neutralPosition_ + delta_` converted to the `unsigned
short` return type (it wraps mod 65536 when `neutralPosition + delta`
exceeds 65535). -/
def ServoMotorPololuBase.getMaxPosInAbs (m : ServoMotorPololuBase) : Nat :=
  ((((m.neutralPosition : Int) + m.delta) % 65536)).toNat

/-- `ServoMotorPololuBase::setPositionInAbs` (ServoMotor.cpp lines
279-309): range check, then `pololuCtrl_->setPosition`, then the
return value is read back with `pololuCtrl_->getPosition`. -/
def ServoMotorPololuBase.setPositionInAbs (m : ServoMotorPololuBase)
    (newPosition : Nat) (s : Conn) : Except PErr Nat × Conn :=
  if newPosition < m.getMinPosInAbs ∨ newPosition > m.getMaxPosInAbs then
    (.error .outOfRange, s)
  else
    match Pololu.setPosition m.servoNmb newPosition s with
    | (.error e, s1) => (.error e, s1)
    | (.ok _, s1) => Pololu.getPosition m.servoNmb s1

/-- `ServoMotorPololuBaseAdv::setSpeed` (ServoMotor.cpp lines 348-363):
values above 255 are clamped to 255, then `pololuCtrl_->setSpeed` is
called and the clamped value returned. -/
def ServoMotorPololuBaseAdv.setSpeed (m : ServoMotorPololuBase)
    (newSpeed : Nat) (s : Conn) : Except PErr Nat × Conn :=
  let v := if newSpeed > 255 then 255 else newSpeed
  match Pololu.setSpeed m.servoNmb v s with
  | (.error e, s1) => (.error e, s1)
  | (.ok _, s1) => (.ok v, s1)

/-- `ServoMotorPololuBaseAdv::setAcceleration` (ServoMotor.cpp lines
375-390): values above 255 are clamped to 255, and the source then
calls `pololuCtrl_->setSpeed` (line 380) — not `setAcceleration`. -/
def ServoMotorPololuBaseAdv.setAcceleration (m : ServoMotorPololuBase)
    (newAcceleration : Nat) (s : Conn) : Except PErr Nat × Conn :=
  let v := if newAcceleration > 255 then 255 else newAcceleration
  match Pololu.setSpeed m.servoNmb v s with
  | (.error e, s1) => (.error e, s1)
  | (.ok _, s1) => (.ok v, s1)

/-- Truncation toward zero of a rational value, the semantics of the C
casts `(short)` / `(unsigned short)` applied to a float expression. -/
def truncQ (q : ℚ) : Int :=
  if q < 0 then ⌈q⌉ else ⌊q⌋

/-- The newer-revision full servo class `ServoMotorPololu`
(ServoMotor.cpp lines 404-549): `ServoMotorPololuBase` data extended by
the configurable degree bounds `minDeg_`, `maxDeg_`. -/
structure ServoMotorPololu where
  servoNmb : Nat
  neutralPosition : Nat
  delta : Nat
  minDeg : Int
  maxDeg : Int

/-- `ServoMotorPololu::mapDegValue2PosValue` (ServoMotor.cpp lines
523-535), with the float arithmetic carried out exactly over ℚ:
`fact = 2*delta / (maxDeg - minDeg)`,
`pos = fact * (d - minDeg) + (neutralPosition - delta)`, then the cast
to `unsigned short`.  (On the calibration used by the claims —
`neutralPosition = 6000`, `delta = 3600`, bounds ±90 — every
intermediate float value is an exactly representable integer or the
exact factor 40, so the ℚ model coincides with the float computation.) -/
def ServoMotorPololu.mapDegValue2PosValue (m : ServoMotorPololu) (d : Int) : Nat :=
  let fact : ℚ := (2 * (m.delta : ℚ)) / ((m.maxDeg : ℚ) - (m.minDeg : ℚ))
  let pos : ℚ := fact * ((d : ℚ) - (m.minDeg : ℚ)) +
    ((m.neutralPosition : ℚ) - (m.delta : ℚ))
  (truncQ pos).toNat

/-- `ServoMotorPololu::mapPosValue2DegValue` (ServoMotor.cpp lines
537-549), float arithmetic over ℚ:
`fact = (maxDeg - minDeg) / (2*delta)`,
`deg = fact * (p - (neutralPosition - delta)) + minDeg`, cast to
`short`. -/
def ServoMotorPololu.mapPosValue2DegValue (m : ServoMotorPololu) (p : Nat) : Int :=
  let fact : ℚ := ((m.maxDeg : ℚ) - (m.minDeg : ℚ)) / (2 * (m.delta : ℚ))
  let pos : ℚ := fact * ((p : ℚ) - ((m.neutralPosition : ℚ) - (m.delta : ℚ))) +
    (m.minDeg : ℚ)
  truncQ pos

/-- The rounding performed by `ServoMotorPololu::rad2deg`
(ServoMotor.cpp lines 518-521): `(short)(x*180.0/M_PI + 0.5)`,
expressed as a function of the exact degree value `d = x*180/π`:
add 1/2, then truncate toward zero. -/
def rad2degRound (d : ℚ) : Int :=
  truncQ (d + 1/2)

/-- The rounding named by the specification: round to the nearest
integer, ties away from zero. -/
def specRoundHalfAwayFromZero (d : ℚ) : Int :=
  if d < 0 then -⌊-d + 1/2⌋ else ⌊d + 1/2⌋

/-- `ServoMotorPololu::setPositionInDeg` (ServoMotor.cpp lines
434-453): range check against the configured `minDeg_`/`maxDeg_`, then
`pololuCtrl_->setPosition(servoNmb_, mapDegValue2PosValue(actPos))`,
returning the degree value that was set. -/
def ServoMotorPololu.setPositionInDeg (m : ServoMotorPololu)
    (newPosition : Int) (s : Conn) : Except PErr Int × Conn :=
  if newPosition < m.minDeg ∨ newPosition > m.maxDeg then (.error .outOfRange, s)
  else
    match Pololu.setPosition m.servoNmb (m.mapDegValue2PosValue newPosition) s with
    | (.error e, s1) => (.error e, s1)
    | (.ok _, s1) => (.ok newPosition, s1)

/-- `ServoMotorPololu::setPositionInRad` (ServoMotor.cpp lines
455-468): `setPositionInDeg(rad2deg(newPosition))`.  The parameter is
the exact degree value `d = rad * 180/π` of the radian argument, so
that the conversion factor of `rad2deg` needs no float π; the integer
degree that was set is returned (the source returns its `deg2rad`). -/
def ServoMotorPololu.setPositionInRadDeg (m : ServoMotorPololu)
    (d : ℚ) (s : Conn) : Except PErr Int × Conn :=
  m.setPositionInDeg (rad2degRound d) s

/-- C1: the set-position command encoder produces exactly the four bytes
`[0x84, ch, rawPos & 0x7F, (rawPos >> 7) & 0x7F]` (opcode, channel, low
7-bit group, high 7-bit group); with the port open these are the bytes
appended to the transport trace, and for `rawPos = 6000` they are
`[0x84, ch, 0x70, 0x2E]`. -/
theorem C1_setPosition_encoding (ch pos : Nat) (s : Conn)
    (hch : ch < 256) (hopen : s.isComPortOpen = true) :
    Pololu.setPosition ch pos s =
      (.ok pos, { s with trace := s.trace ++ [[0x84, ch, pos % 128, pos / 128 % 128]] })
    ∧ encodeSetPosition ch 6000 = [0x84, ch, 0x70, 0x2E] := by
  constructor
  · simp [Pololu.setPosition, hopen, encodeSetPosition, Nat.mod_eq_of_lt hch]
  · simp [encodeSetPosition, Nat.mod_eq_of_lt hch]

/-- Witness for C1 at `ch = 5`, `rawPos = 6000` on an open connection. -/
theorem C1_setPosition_encoding_witness :
    Pololu.setPosition 5 6000 ⟨true, devNull, []⟩ =
      (.ok 6000, ⟨true, devNull, [[0x84, 5, 0x70, 0x2E]]⟩)
    ∧ encodeSetPosition 5 6000 = [0x84, 5, 0x70, 0x2E] := by
  have h := C1_setPosition_encoding 5 6000 ⟨true, devNull, []⟩ (by decide) rfl
  exact ⟨h.1, h.2⟩

/-- C4: every command (set position, set speed, set acceleration, get
position, get moving state) attempted while the connection is closed —
in particular on a freshly constructed, never-opened connection, whose
state is exactly a closed one with an empty trace — fails with
`notConnected` and leaves the state (hence the transport trace)
unchanged. -/
theorem C4_closed_rejects_all (s : Conn) (h : s.isComPortOpen = false)
    (device : List Nat → List Nat) (ch pos v a g : Nat) :
    Pololu.setPosition ch pos s = (.error .notConnected, s)
  ∧ Pololu.setSpeed ch v s = (.error .notConnected, s)
  ∧ Pololu.setAcceleration ch a s = (.error .notConnected, s)
  ∧ Pololu.getPosition g s = (.error .notConnected, s)
  ∧ Pololu.getMovingState s = (.error .notConnected, s)
  ∧ Pololu.fresh device = { isComPortOpen := false, device := device, trace := [] } := by
  refine ⟨?_, ?_, ?_, ?_, ?_, rfl⟩ <;>
    simp [Pololu.setPosition, Pololu.setSpeed, Pololu.setAcceleration,
          Pololu.getPosition, Pololu.getMovingState, h]

/-- Witness for C4 on the freshly constructed connection. -/
theorem C4_closed_rejects_all_witness :
    Pololu.setPosition 1 6000 (Pololu.fresh devNull) = (.error .notConnected, Pololu.fresh devNull)
  ∧ Pololu.setSpeed 1 10 (Pololu.fresh devNull) = (.error .notConnected, Pololu.fresh devNull)
  ∧ Pololu.setAcceleration 1 10 (Pololu.fresh devNull) = (.error .notConnected, Pololu.fresh devNull)
  ∧ Pololu.getPosition 1 (Pololu.fresh devNull) = (.error .notConnected, Pololu.fresh devNull)
  ∧ Pololu.getMovingState (Pololu.fresh devNull) = (.error .notConnected, Pololu.fresh devNull)
  ∧ Pololu.fresh devNull = { isComPortOpen := false, device := devNull, trace := [] } :=
  C4_closed_rejects_all (Pololu.fresh devNull) rfl devNull 1 6000 10 10 1

/-- C5: for degree values inside the configured range `[-90, 90]`,
`ServoMotor::setPositionInDeg` sends the set-position command for the
raw value `startingPosition + deg * conFactorDegToPos *
conFactorMyToPos` (as the `unsigned short` `degToRaw`, which equals the
integer `neutral + deg*10*4` whenever that integer is representable);
degree values outside the range fail with `outOfRange` without a
transport call.  For `neutral = 6000`, `delta = 3600`: `deg = 0`
resolves to raw `6000` and `deg = 90` to raw `9600`, the channel's
`getMaxPosInAbs`. -/
theorem C5_setPositionInDeg_mapping (m : ServoMotor) (d : Int) (s : Conn)
    (hopen : s.isComPortOpen = true) :
    ((-90 ≤ d ∧ d ≤ 90) →
        ServoMotor.setPositionInDeg m d s =
          (.ok (toShort (m.degToRaw d)),
           { s with trace := s.trace ++ [encodeSetPosition m.servoNumber (m.degToRaw d)] }))
  ∧ ((0 ≤ (m.startingPosition : Int) + d * 10 * 4 ∧
        (m.startingPosition : Int) + d * 10 * 4 < 65536) →
        (m.degToRaw d : Int) = (m.startingPosition : Int) + d * 10 * 4)
  ∧ ((d > 90 ∨ d < -90) →
        ServoMotor.setPositionInDeg m d s = (.error .outOfRange, s))
  ∧ ServoMotor.degToRaw ⟨m.servoNumber, 6000, 3600⟩ 0 = 6000
  ∧ ServoMotor.degToRaw ⟨m.servoNumber, 6000, 3600⟩ 90 = 9600
  ∧ ServoMotor.getMaxPosInAbs ⟨m.servoNumber, 6000, 3600⟩ = 9600 := by
  refine ⟨?_, ?_, ?_,
    by simp only [ServoMotor.degToRaw, conFactorDegToPos, conFactorMyToPos]; omega,
    by simp only [ServoMotor.degToRaw, conFactorDegToPos, conFactorMyToPos]; omega,
    by simp only [ServoMotor.getMaxPosInAbs]; omega⟩
  · rintro ⟨h1, h2⟩
    have hno : ¬(d > servoMotorMaxDeg ∨ d < -servoMotorMaxDeg) := by
      simp [servoMotorMaxDeg]; omega
    simp [ServoMotor.setPositionInDeg, hno, Pololu.setPosition, hopen]
  · rintro ⟨h1, h2⟩
    simp only [ServoMotor.degToRaw, conFactorDegToPos, conFactorMyToPos]
    omega
  · intro h
    have hyes : d > servoMotorMaxDeg ∨ d < -servoMotorMaxDeg := by
      simp [servoMotorMaxDeg]; omega
    simp [ServoMotor.setPositionInDeg, hyes]

/-- Witness for C5 at `neutral = 6000`, `delta = 3600`, `deg = 90`. -/
theorem C5_setPositionInDeg_mapping_witness :
    ServoMotor.setPositionInDeg ⟨2, 6000, 3600⟩ 90 ⟨true, devNull, []⟩ =
      (.ok 9600, ⟨true, devNull, [[0x84, 2, 0x00, 0x4B]]⟩)
  ∧ (ServoMotor.degToRaw ⟨2, 6000, 3600⟩ 90 : Int) = 6000 + 90 * 10 * 4 :=
  ⟨(C5_setPositionInDeg_mapping ⟨2, 6000, 3600⟩ 90 ⟨true, devNull, []⟩ rfl).1
      (by decide),
   (C5_setPositionInDeg_mapping ⟨2, 6000, 3600⟩ 90 ⟨true, devNull, []⟩ rfl).2.1
      (by norm_num)⟩

/-- Truncation toward zero of an integer-valued rational is that
integer. -/
theorem truncQ_intCast (n : Int) : truncQ (n : ℚ) = n := by
  unfold truncQ
  split <;> simp

/-- C10: on the calibration `neutral = 6000`, `delta = 3600` with the
degree bounds `minDeg = -90`, `maxDeg = 90`, the newer revision's
general linear mapping `ServoMotorPololu::mapDegValue2PosValue` agrees
with the older revision's degree mapping
`startingPosition + d * conFactorDegToPos * conFactorMyToPos`
(`ServoMotor::setPositionInDeg`) for every integer degree in
`[-90, 90]`. -/
theorem C10_deg_mapping_equiv (ch : Nat) (d : Int)
    (h1 : -90 ≤ d) (h2 : d ≤ 90) :
    ServoMotorPololu.mapDegValue2PosValue ⟨ch, 6000, 3600, -90, 90⟩ d =
      ServoMotor.degToRaw ⟨ch, 6000, 3600⟩ d := by
  have hpos :
      ((2 * ((3600 : Nat) : ℚ)) / (((90 : Int) : ℚ) - ((-90 : Int) : ℚ))) *
          ((d : ℚ) - ((-90 : Int) : ℚ)) +
        (((6000 : Nat) : ℚ) - ((3600 : Nat) : ℚ)) = ((6000 + d * 40 : Int) : ℚ) := by
    push_cast
    ring_nf
  simp only [ServoMotorPololu.mapDegValue2PosValue]
  rw [hpos, truncQ_intCast]
  simp only [ServoMotor.degToRaw, conFactorDegToPos, conFactorMyToPos]
  omega

/-- Witness for C10 at `d = 17`. -/
theorem C10_deg_mapping_equiv_witness :
    ServoMotorPololu.mapDegValue2PosValue ⟨3, 6000, 3600, -90, 90⟩ 17 =
      ServoMotor.degToRaw ⟨3, 6000, 3600⟩ 17 :=
  C10_deg_mapping_equiv 3 17 (by norm_num) (by norm_num)

/-- C2 counterexample: on an open connection, the set-position encoder
accepts `rawPos = 16384` (≥ 16384) — it does not fail with an
out-of-range error; it sends four bytes in which the value has been
silently truncated to `16384 mod 16384 = 0`. -/
theorem C2_counterexample :
    Pololu.setPosition 0 16384 ⟨true, devNull, []⟩ =
      (.ok 16384, ⟨true, devNull, [[0x84, 0, 0, 0]]⟩) := rfl

/-- Helper: the command encoders only see the channel mod 256 and the
raw value mod 16384. -/
theorem encode_truncates (ch v : Nat) :
    encodeSetPosition ch v = encodeSetPosition (ch % 256) (v % 16384)
  ∧ encodeSetSpeed ch v = encodeSetSpeed (ch % 256) (v % 16384)
  ∧ encodeSetAcceleration ch v = encodeSetAcceleration (ch % 256) (v % 16384) := by
  refine ⟨?_, ?_, ?_⟩ <;>
    simp [encodeSetPosition, encodeSetSpeed, encodeSetAcceleration] <;>
    omega

/-- C2 amended: the command encoding layer performs no range check at
all.  With the port open, set position / set speed / set acceleration
always succeed and write four bytes, in which the channel has been
truncated mod 256 and the raw value mod 16384 (its low 14 bits);
inputs with channel ≥ 256-aliases or raw value ≥ 16384 are silently
truncated, never rejected. -/
theorem C2_amended_truncation (ch pos v a : Nat) (s : Conn)
    (hopen : s.isComPortOpen = true) :
    Pololu.setPosition ch pos s =
      (.ok pos, { s with trace := s.trace ++ [encodeSetPosition (ch % 256) (pos % 16384)] })
  ∧ Pololu.setSpeed ch v s =
      (.ok true, { s with trace := s.trace ++ [encodeSetSpeed (ch % 256) (v % 16384)] })
  ∧ Pololu.setAcceleration ch a s =
      (.ok true, { s with trace := s.trace ++ [encodeSetAcceleration (ch % 256) (a % 16384)] }) := by
  refine ⟨?_, ?_, ?_⟩
  · rw [Pololu.setPosition, if_neg (by simp [hopen]), ← (encode_truncates ch pos).1]
  · rw [Pololu.setSpeed, if_neg (by simp [hopen]), ← (encode_truncates ch v).2.1]
  · rw [Pololu.setAcceleration, if_neg (by simp [hopen]), ← (encode_truncates ch a).2.2]

/-- Witness for C2 amended at `ch = 300`, `rawPos = 16497`
(`300 mod 256 = 44`, `16497 mod 16384 = 113`). -/
theorem C2_amended_truncation_witness :
    Pololu.setPosition 300 16497 ⟨true, devNull, []⟩ =
      (.ok 16497, ⟨true, devNull, [[0x84, 44, 113, 0]]⟩) :=
  (C2_amended_truncation 300 16497 1 2 ⟨true, devNull, []⟩ rfl).1

/-- A transport oracle that answers every read with the bytes `[0, 0]`
(hardware reporting position 0). -/
def devZero : List Nat → List Nat := fun _ => [0, 0]

/-- C3 counterexample: on the calibration `neutral = 6000`,
`delta = 3600`, the in-range request
`ServoMotorPololuBase::setPositionInAbs(6000)` does not return the
requested `rawPos` and does not stop after the set-position command: it
issues a second transport transaction (a get-position query) and
returns the value the hardware reports (here 0, not 6000). -/
theorem C3_counterexample :
    ServoMotorPololuBase.setPositionInAbs ⟨2, 6000, 3600⟩ 6000 ⟨true, devZero, []⟩ =
      (.ok 0, ⟨true, devZero, [[0x84, 2, 112, 46], [0x90, 2]]⟩)
  ∧ (0 : Nat) ≠ 6000 := ⟨rfl, by decide⟩

/-- C3 amended: for every calibration, both revisions fail with
`outOfRange` and leave the transport state unchanged when `rawPos` is
outside `[neutral - delta, neutral + delta]`.  For in-range `rawPos` on
an open connection, the older revision (`ServoMotor::setPositionInAbs`)
issues exactly the set-position command and returns `rawPos` itself
(fire-and-forget); the newer revision
(`ServoMotorPololuBase::setPositionInAbs`) issues the set-position
command followed by a get-position query and returns the position
decoded from the hardware response, not `rawPos`. -/
theorem C3_amended_setPositionInAbs (mo : ServoMotor) (mb : ServoMotorPololuBase)
    (pos : Nat) (s : Conn) (hopen : s.isComPortOpen = true) :
    (((pos : Int) < (mo.startingPosition : Int) - mo.delta ∨
        (pos : Int) > (mo.startingPosition : Int) + mo.delta) →
       ServoMotor.setPositionInAbs mo pos s = (.error .outOfRange, s))
  ∧ ((pos < mb.getMinPosInAbs ∨ pos > mb.getMaxPosInAbs) →
       ServoMotorPololuBase.setPositionInAbs mb pos s = (.error .outOfRange, s))
  ∧ (((mo.startingPosition : Int) - mo.delta ≤ pos ∧
        (pos : Int) ≤ (mo.startingPosition : Int) + mo.delta) →
       ServoMotor.setPositionInAbs mo pos s =
         (.ok pos, { s with trace := s.trace ++ [encodeSetPosition mo.servoNumber pos] }))
  ∧ ((mb.getMinPosInAbs ≤ pos ∧ pos ≤ mb.getMaxPosInAbs) →
       ServoMotorPololuBase.setPositionInAbs mb pos s =
         (.ok ((s.device (encodeGetPosition mb.servoNmb)).getD 0 0 % 256 +
                 256 * ((s.device (encodeGetPosition mb.servoNmb)).getD 1 0 % 256)),
          { s with trace := s.trace ++
              [encodeSetPosition mb.servoNmb pos, encodeGetPosition mb.servoNmb] })) := by
  refine ⟨?_, ?_, ?_, ?_⟩
  · intro h
    rw [ServoMotor.setPositionInAbs, if_pos (by omega)]
  · intro h
    rw [ServoMotorPololuBase.setPositionInAbs, if_pos (by omega)]
  · rintro ⟨h1, h2⟩
    rw [ServoMotor.setPositionInAbs, if_neg (by omega), Pololu.setPosition,
      if_neg (by simp [hopen])]
  · rintro ⟨h1, h2⟩
    rw [ServoMotorPololuBase.setPositionInAbs, if_neg (by omega)]
    simp only [Pololu.setPosition, hopen, Bool.true_eq_false, if_false,
      Pololu.getPosition, List.append_assoc, List.singleton_append]

/-- Witness for C3 amended on the calibration `neutral = 6000`,
`delta = 3600` with `rawPos = 6000` and hardware echoing `[0, 0]`. -/
theorem C3_amended_setPositionInAbs_witness :
    ServoMotor.setPositionInAbs ⟨2, 6000, 3600⟩ 6000 ⟨true, devZero, []⟩ =
      (.ok 6000, ⟨true, devZero, [[0x84, 2, 112, 46]]⟩)
  ∧ ServoMotorPololuBase.setPositionInAbs ⟨2, 6000, 3600⟩ 6000 ⟨true, devZero, []⟩ =
      (.ok 0, ⟨true, devZero, [[0x84, 2, 112, 46], [0x90, 2]]⟩) :=
  ⟨(C3_amended_setPositionInAbs ⟨2, 6000, 3600⟩ ⟨2, 6000, 3600⟩ 6000
      ⟨true, devZero, []⟩ rfl).2.2.1 (by constructor <;> norm_num),
   (C3_amended_setPositionInAbs ⟨2, 6000, 3600⟩ ⟨2, 6000, 3600⟩ 6000
      ⟨true, devZero, []⟩ rfl).2.2.2 (by constructor <;> norm_num
        [ServoMotorPololuBase.getMinPosInAbs, ServoMotorPololuBase.getMaxPosInAbs])⟩

/-- C6 counterexample: `ServoMotor::setSpeed(0)` fails with
`outOfRange` (the claim says `v = 0` is accepted as "unlimited"), and
`ServoMotorPololuBaseAdv::setSpeed(300)` does not reject values above
255 — it clamps to 255 and sends the set-speed command. -/
theorem C6_counterexample :
    ServoMotor.setSpeed ⟨2, 6000, 3600⟩ 0 ⟨true, devNull, []⟩ =
      (.error .outOfRange, ⟨true, devNull, []⟩)
  ∧ ServoMotorPololuBaseAdv.setSpeed ⟨2, 6000, 3600⟩ 300 ⟨true, devNull, []⟩ =
      (.ok 255, ⟨true, devNull, [[0x87, 2, 127, 1]]⟩) := ⟨rfl, rfl⟩

/-- C6 amended: the older revision (`ServoMotor::setSpeed` /
`setAcceleration`) accepts exactly `v ∈ [1, 255]` and fails with
`outOfRange` for `v = 0` as well as for `v > 255`; the newer revision
(`ServoMotorPololuBaseAdv::setSpeed` / `setAcceleration`) accepts every
`v`, silently clamping values above 255 to 255 — neither revision
implements "[1, 255] or exactly 0, rejecting the rest". -/
theorem C6_amended_speed_accel (m : ServoMotor) (b : ServoMotorPololuBase)
    (v : Nat) (s : Conn) (hopen : s.isComPortOpen = true) :
    ((1 ≤ v ∧ v ≤ 255) →
        ServoMotor.setSpeed m v s =
          (.ok true, { s with trace := s.trace ++ [encodeSetSpeed m.servoNumber v] })
      ∧ ServoMotor.setAcceleration m v s =
          (.ok true, { s with trace := s.trace ++ [encodeSetAcceleration m.servoNumber v] }))
  ∧ ((v = 0 ∨ 255 < v) →
        ServoMotor.setSpeed m v s = (.error .outOfRange, s)
      ∧ ServoMotor.setAcceleration m v s = (.error .outOfRange, s))
  ∧ ServoMotorPololuBaseAdv.setSpeed b v s =
      (.ok (if v > 255 then 255 else v),
       { s with trace := s.trace ++ [encodeSetSpeed b.servoNmb (if v > 255 then 255 else v)] })
  ∧ ServoMotorPololuBaseAdv.setAcceleration b v s =
      (.ok (if v > 255 then 255 else v),
       { s with trace := s.trace ++ [encodeSetSpeed b.servoNmb (if v > 255 then 255 else v)] }) := by
  refine ⟨?_, ?_, ?_, ?_⟩
  · rintro ⟨h1, h2⟩
    constructor
    · rw [ServoMotor.setSpeed, if_neg (by omega), Pololu.setSpeed,
        if_neg (by simp [hopen])]
    · rw [ServoMotor.setAcceleration, if_neg (by omega), Pololu.setAcceleration,
        if_neg (by simp [hopen])]
  · intro h
    constructor
    · rw [ServoMotor.setSpeed, if_pos (by omega)]
    · rw [ServoMotor.setAcceleration, if_pos (by omega)]
  · simp only [ServoMotorPololuBaseAdv.setSpeed, Pololu.setSpeed, hopen,
      Bool.true_eq_false, if_false]
  · simp only [ServoMotorPololuBaseAdv.setAcceleration, Pololu.setSpeed, hopen,
      Bool.true_eq_false, if_false]

/-- Witness for C6 amended at `v = 100`. -/
theorem C6_amended_speed_accel_witness :
    ServoMotor.setSpeed ⟨2, 6000, 3600⟩ 100 ⟨true, devNull, []⟩ =
      (.ok true, ⟨true, devNull, [[0x87, 2, 100, 0]]⟩)
  ∧ ServoMotorPololuBaseAdv.setAcceleration ⟨2, 6000, 3600⟩ 100 ⟨true, devNull, []⟩ =
      (.ok 100, ⟨true, devNull, [[0x87, 2, 100, 0]]⟩) :=
  ⟨((C6_amended_speed_accel ⟨2, 6000, 3600⟩ ⟨2, 6000, 3600⟩ 100
      ⟨true, devNull, []⟩ rfl).1 (by norm_num)).1,
   (C6_amended_speed_accel ⟨2, 6000, 3600⟩ ⟨2, 6000, 3600⟩ 100
      ⟨true, devNull, []⟩ rfl).2.2.2⟩

/-- C7: the controller layer's own set-acceleration command
(`Pololu::setAcceleration`) does send opcode `0x89` with the 7-bit
split; but `ServoMotorPololuBaseAdv::setAcceleration` (ServoMotor.cpp
line 380) calls `pololuCtrl_->setSpeed`, so a servo-level
set-acceleration that reaches the transport sends the set-speed opcode
`0x87` — contradicting both the claim and the function's own
documentation ("Set the maximal acceleration"). -/
theorem C7_bug_eval :
    Pololu.setAcceleration 0 10 ⟨true, devNull, []⟩ =
      (.ok true, ⟨true, devNull, [[0x89, 0, 10, 0]]⟩)
  ∧ ServoMotorPololuBaseAdv.setAcceleration ⟨0, 6000, 3600⟩ 10 ⟨true, devNull, []⟩ =
      (.ok 10, ⟨true, devNull, [[0x87, 0, 10, 0]]⟩)
  ∧ (0x87 : Nat) ≠ 0x89 := ⟨rfl, rfl, by decide⟩

/-- A transport oracle echoing raw position 6000 (bytes `[112, 23]`,
little-endian: `112 + 256*23 = 6000`) for a get-position query on
channel 2. -/
def devEcho6000 : List Nat → List Nat :=
  fun cmd => if cmd = [0x90, 2] then [112, 23] else []

/-- C8: on the calibration `neutral = 6000`, `delta = 3600`,
`ServoMotor::setPositionInDeg(0)` writes raw position 6000; with the
transport echoing that raw position back, `getPositionInDeg` returns
`(6000/4 - 6000)/10 = -450`, not the written degree 0 — the degree
read-out of `ServoMotor` divides by the quarter-microsecond factor
before subtracting the neutral position and is not the inverse of the
degree-to-raw mapping.  The newer revision's
`ServoMotorPololu::mapPosValue2DegValue` does invert it here: it maps
raw 6000 back to degree 0. -/
theorem C8_bug_eval :
    ServoMotor.setPositionInDeg ⟨2, 6000, 3600⟩ 0 ⟨true, devEcho6000, []⟩ =
      (.ok 6000, ⟨true, devEcho6000, [[0x84, 2, 112, 46]]⟩)
  ∧ ServoMotor.getPositionInDeg ⟨2, 6000, 3600⟩
        ⟨true, devEcho6000, [[0x84, 2, 112, 46]]⟩ =
      (.ok (-450), ⟨true, devEcho6000, [[0x84, 2, 112, 46], [0x90, 2]]⟩)
  ∧ ((-450 : Int) ≠ 0)
  ∧ ServoMotorPololu.mapPosValue2DegValue ⟨2, 6000, 3600, -90, 90⟩ 6000 = 0 := by
  refine ⟨rfl, rfl, by decide, ?_⟩
  norm_num [ServoMotorPololu.mapPosValue2DegValue, truncQ]

/-- C9 counterexample: at the exact degree value −1 (radian input
`-π/180`, inside the configured range), the code's rounding
`(short)(deg + 0.5)` yields 0 while round-half-away-from-zero yields
−1; consequently `setPositionInRad` sends the raw position for degree
0 (6000 on the `neutral = 6000, delta = 3600, ±90°` calibration), not
the raw position 5960 for degree −1 that the claim's rounding would
produce. -/
theorem C9_counterexample :
    rad2degRound (-1) = 0
  ∧ specRoundHalfAwayFromZero (-1) = -1
  ∧ ServoMotorPololu.setPositionInRadDeg ⟨0, 6000, 3600, -90, 90⟩ (-1)
        ⟨true, devNull, []⟩ =
      (.ok 0, ⟨true, devNull, [[0x84, 0, 112, 46]]⟩)
  ∧ ServoMotorPololu.mapDegValue2PosValue ⟨0, 6000, 3600, -90, 90⟩ (-1) = 5960 := by
  have h0 : rad2degRound (-1) = 0 := by
    norm_num [rad2degRound, truncQ]
  have hmap : ServoMotorPololu.mapDegValue2PosValue ⟨0, 6000, 3600, -90, 90⟩ 0 = 6000 := by
    norm_num [ServoMotorPololu.mapDegValue2PosValue, truncQ]
    decide
  have hmap1 : ServoMotorPololu.mapDegValue2PosValue ⟨0, 6000, 3600, -90, 90⟩ (-1) = 5960 := by
    norm_num [ServoMotorPololu.mapDegValue2PosValue, truncQ]
    decide
  refine ⟨h0, by norm_num [specRoundHalfAwayFromZero], ?_, hmap1⟩
  rw [ServoMotorPololu.setPositionInRadDeg, h0, ServoMotorPololu.setPositionInDeg,
    if_neg (by norm_num), hmap]
  rfl

/-- C9 amended: `setPositionInRad` (newer revision,
`ServoMotorPololu`) converts the radian argument to its exact degree
value `d = rad * 180/π` and rounds it by adding 1/2 and truncating
toward zero — round-half-up for nonnegative degree values, but biased
toward zero for negative ones (it is not round-half-away-from-zero) —
then delegates to the degree setter, which performs the range check in
degree space on the rounded integer: the call succeeds exactly when
the rounded degree lies within `[minDeg, maxDeg]` and fails with
`outOfRange` otherwise. -/
theorem C9_amended_rad_rounding (m : ServoMotorPololu) (d : ℚ) (s : Conn)
    (hopen : s.isComPortOpen = true) :
    ServoMotorPololu.setPositionInRadDeg m d s =
      ServoMotorPololu.setPositionInDeg m (rad2degRound d) s
  ∧ (0 ≤ d → rad2degRound d = ⌊d + 1/2⌋)
  ∧ ((rad2degRound d < m.minDeg ∨ rad2degRound d > m.maxDeg) →
       ServoMotorPololu.setPositionInRadDeg m d s = (.error .outOfRange, s))
  ∧ ((m.minDeg ≤ rad2degRound d ∧ rad2degRound d ≤ m.maxDeg) →
       ServoMotorPololu.setPositionInRadDeg m d s =
         (.ok (rad2degRound d),
          { s with trace := s.trace ++
              [encodeSetPosition m.servoNmb (m.mapDegValue2PosValue (rad2degRound d))] })) := by
  refine ⟨rfl, ?_, ?_, ?_⟩
  · intro hd
    rw [rad2degRound, truncQ, if_neg (by linarith)]
  · intro h
    rw [ServoMotorPololu.setPositionInRadDeg, ServoMotorPololu.setPositionInDeg,
      if_pos h]
  · rintro ⟨h1, h2⟩
    rw [ServoMotorPololu.setPositionInRadDeg, ServoMotorPololu.setPositionInDeg,
      if_neg (by omega), Pololu.setPosition, if_neg (by simp [hopen])]

/-- Witness for C9 amended at the exact degree value 1/2 (rounds to 1)
on the `neutral = 6000, delta = 3600, ±90°` calibration. -/
theorem C9_amended_rad_rounding_witness :
    ServoMotorPololu.setPositionInRadDeg ⟨0, 6000, 3600, -90, 90⟩ (1/2)
        ⟨true, devNull, []⟩ =
      ServoMotorPololu.setPositionInDeg ⟨0, 6000, 3600, -90, 90⟩
        (rad2degRound (1/2)) ⟨true, devNull, []⟩
  ∧ rad2degRound (1/2) = ⌊(1/2 : ℚ) + 1/2⌋
  ∧ ServoMotorPololu.setPositionInRadDeg ⟨0, 6000, 3600, -90, 90⟩ (1/2)
        ⟨true, devNull, []⟩ =
      (.ok (rad2degRound (1/2)),
       ⟨true, devNull,
        [encodeSetPosition 0 (ServoMotorPololu.mapDegValue2PosValue
            ⟨0, 6000, 3600, -90, 90⟩ (rad2degRound (1/2)))]⟩) := by
  have h := C9_amended_rad_rounding ⟨0, 6000, 3600, -90, 90⟩ (1/2)
    ⟨true, devNull, []⟩ rfl
  have hrHalf : rad2degRound (1/2) = 1 := by norm_num [rad2degRound, truncQ]
  exact ⟨h.1, h.2.1 (by norm_num), h.2.2.2 (by rw [hrHalf]; constructor <;> norm_num)⟩
